import Mathlib

/-!
Verification of the health-check watchdog subsystem of ingestor-scrapper
(`src/ingestor_scrapper/health/`): checks, history store, severity
classifier, notifier and runner, shallowly embedded in Lean.

Python dictionaries with optional keys are modelled as structures of
`Option` fields read through `Option.getD`, matching `dict.get(key, default)`.
The persisted metrics file is an association list keyed by site id.
External collaborators (HTTP fetch, hashlib, csv/openpyxl/bs4 parsers,
process environment) are supplied as explicit oracle fields of a
dependency record; the repository code around them is translated directly.
-/

/-- Python truthiness of an optional string: `None` and `""` are falsy. -/
def py_truthy : Option String → Bool
  | none => false
  | some s => s != ""

/-- Python substring test `needle in haystack` on character lists:
some drop of the haystack starts with the needle. -/
def py_in_list (needle haystack : List Char) : Bool :=
  (List.range (haystack.length + 1)).any (fun i => needle.isPrefixOf (haystack.drop i))

/-- Python substring test on strings. -/
def py_in (needle haystack : String) : Bool :=
  py_in_list needle.data haystack.data

/-- Python `str.lower()` (ASCII case folding). -/
def str_lower (s : String) : String :=
  ⟨s.data.map Char.toLower⟩

/-- Lookup in a string-keyed association list, i.e. Python `dict.get(key)`. -/
def assoc_get {α : Type} (m : List (String × α)) (k : String) : Option α :=
  (m.find? (fun p => p.1 == k)).map (·.2)

/-- Python `dict[key] = value`: replace the entry if the key is present,
otherwise append it (insertion order preserved). -/
def assoc_set {α : Type} (m : List (String × α)) (k : String) (v : α) : List (String × α) :=
  if m.any (fun p => p.1 == k) then
    m.map (fun p => if p.1 == k then (k, v) else p)
  else
    m ++ [(k, v)]

/-! ## checks.py -/

/-- `checks.check_status`: true iff the HTTP status code is in 200..299. -/
def check_status (status_code : Int) : Bool :=
  200 ≤ status_code && status_code < 300

/-- `checks.check_min_bytes`: true iff the content length meets the minimum. -/
def check_min_bytes (content : List Nat) (min_bytes : Int) : Bool :=
  (content.length : Int) ≥ min_bytes

/-- `checks.check_content_type`: lowercase the `Content-Type` header value
(empty string when the header is absent) and test whether the lowercased
expected value occurs in it as a substring. -/
def check_content_type (headers : List (String × String)) (expected : String) : Bool :=
  let content_type := str_lower ((assoc_get headers "Content-Type").getD "")
  py_in (str_lower expected) content_type

/-! ## store.py -/

/-- One site record of the persisted metrics file; every key is optional,
exactly as in a JSON object read back from disk. -/
structure SiteMetrics where
  checksum : Option String
  last_size : Option Int
  last_rowcount : Option Int
  history_checksums : Option (List String)
deriving DecidableEq

/-- The persisted metrics map `site_id -> SiteMetrics`. -/
abbrev MetricsMap := List (String × SiteMetrics)

/-- Result of `store.compare_with_history`. Python floats are modelled
as rationals. -/
structure Comparison where
  changed : Bool
  size_change_pct : ℚ
  size_dropped_50pct : Bool
  anomaly : Bool
deriving DecidableEq

/-- `store.get_site_metrics`: `all_metrics.get(site_id, {})`; the absent or
empty record is `none`. -/
def get_site_metrics (st : MetricsMap) (site_id : String) : Option SiteMetrics :=
  assoc_get st site_id

/-- `store.compare_with_history`: all-clear zero result with no prior record;
otherwise `changed` from the checksum, percentage size change only when the
prior size is positive, and `anomaly = changed and size_dropped_50pct`. -/
def compare_with_history (current_size : Int) (current_checksum : String)
    (site_id : String) (st : MetricsMap) : Comparison :=
  match get_site_metrics st site_id with
  | none => { changed := false, size_change_pct := 0, size_dropped_50pct := false, anomaly := false }
  | some historical =>
    let changed : Bool := decide (historical.checksum ≠ some current_checksum)
    let last_size : Int := historical.last_size.getD 0
    let parts : ℚ × Bool :=
      if last_size > 0 then
        let change_pct : ℚ := ((current_size - last_size : Int) : ℚ) / ((last_size : Int) : ℚ) * 100
        (change_pct, decide (change_pct < -50))
      else (0, false)
    { changed := changed
      size_change_pct := parts.1
      size_dropped_50pct := parts.2
      anomaly := changed && parts.2 }

/-- Python list slice `history[-window:]` for an integer window. -/
def py_tail_slice (l : List String) (w : Int) : List String :=
  if w > 0 then l.drop (l.length - w.toNat)
  else if w = 0 then l
  else l.drop (-w).toNat

/-- The history portion of `store.update_metrics`: append the checksum only
when it differs from the most recently appended entry, then truncate to the
most recent `window` entries when over the window. -/
def upd_hist (history : List String) (checksum : String) (checksum_window : Int) : List String :=
  let history1 :=
    if history = [] ∨ history.getLast? ≠ some checksum then history ++ [checksum] else history
  if (history1.length : Int) > checksum_window then py_tail_slice history1 checksum_window
  else history1

/-- `store.update_metrics`, per-site part: set `checksum` and `last_size`,
set `last_rowcount` when a row count is given, then update the checksum
history. -/
def update_site (old : Option SiteMetrics) (checksum : String) (size : Int)
    (rowcount : Option Int) (checksum_window : Int) : SiteMetrics :=
  let sm := old.getD { checksum := none, last_size := none, last_rowcount := none, history_checksums := none }
  let sm := { sm with checksum := some checksum, last_size := some size }
  let sm := match rowcount with
    | some r => { sm with last_rowcount := some r }
    | none => sm
  { sm with history_checksums := some (upd_hist (sm.history_checksums.getD []) checksum checksum_window) }

/-- `store.save_metrics`: writes the whole map; a write exception is caught
and logged inside the function, so on failure the file keeps its previous
content and no exception reaches the caller. -/
def save_metrics (current_file new_metrics : MetricsMap) (write_succeeds : Bool) : MetricsMap :=
  if write_succeeds then new_metrics else current_file

/-- `store.update_metrics`: read the whole map, rebuild the entry under
`site_id`, write the whole map back through `save_metrics`, and return the
updated site record. -/
def update_metrics (st : MetricsMap) (site_id checksum : String) (size : Int)
    (rowcount : Option Int) (checksum_window : Int) (write_succeeds : Bool) :
    MetricsMap × SiteMetrics :=
  let site_metrics := update_site (get_site_metrics st site_id) checksum size rowcount checksum_window
  (save_metrics st (assoc_set st site_id site_metrics) write_succeeds, site_metrics)

/-! ## runner.py: the summary dictionary and the classifier -/

/-- The `schema` sub-dictionary as the classifier sees it: `valid` read with
default `True`, `skipped` read with default `False`. -/
structure SchemaDict where
  valid : Option Bool
  skipped : Option Bool
deriving DecidableEq

/-- The `html_selectors` sub-dictionary: overall `valid` plus the
per-selector result map. -/
structure SelectorsDict where
  valid : Option Bool
  results : List (String × Bool)
deriving DecidableEq

/-- The `checks` sub-dictionary of a run summary. -/
structure ChecksDict where
  status : Option Bool
  min_bytes : Option Bool
  content_type : Option Bool
  schema : Option SchemaDict
  html_selectors : Option SelectorsDict
deriving DecidableEq

/-- A run summary as built by `_run_checks_for_type` and extended by
`run_health_check`. -/
structure Summary where
  url : String
  status_code : Int
  size_bytes : Nat
  checks : ChecksDict
  row_count : Option Int
  checksum : Option String
deriving DecidableEq

/-- The historical dictionary as the classifier reads it
(`historical.get("anomaly")`, `historical.get("size_dropped_50pct")`). -/
structure HistDict where
  anomaly : Option Bool
  size_dropped_50pct : Option Bool
deriving DecidableEq

/-- Guard of the schema FAIL rule in `_determine_level`: a schema sub-result
is present with `valid` false and `skipped` false. -/
def schema_fails : Option SchemaDict → Bool
  | none => false
  | some s => !(s.valid.getD true) && !(s.skipped.getD false)

/-- Guard of the selector FAIL rule in `_determine_level`: an html selector
sub-result is present with `valid` false. -/
def selectors_fail : Option SelectorsDict → Bool
  | none => false
  | some s => !(s.valid.getD true)

/-- `runner._determine_level`: severity from check results and history. -/
def determine_level (summary : Summary) (historical : HistDict) : String :=
  let checks := summary.checks
  if checks.status.getD true = false then "FAIL"
  else if checks.min_bytes.getD true = false then "FAIL"
  else if schema_fails checks.schema then "FAIL"
  else if selectors_fail checks.html_selectors then "FAIL"
  else if historical.anomaly.getD false then "WARN"
  else if historical.size_dropped_50pct.getD false then "WARN"
  else "INFO"

/-! Specification-side classifier, written from the spec wording
(section 4.4): a report with total fields and the numbered precedence
rules, first match wins. -/

/-- Modelled from the spec: the CheckReport fields the classifier reads,
with the schema sub-result as a `(valid, skipped)` pair. -/
structure SpecReport where
  status_ok : Bool
  min_bytes_ok : Bool
  schema : Option (Bool × Bool)
  selectors_valid : Option Bool
deriving DecidableEq

/-- Modelled from the spec: the ComparisonResult fields the classifier reads. -/
structure SpecComparison where
  anomaly : Bool
  size_dropped_50pct : Bool
deriving DecidableEq

/-- Modelled from the spec: `decide(report, comparison)` by strict precedence,
rules 1 to 7 of section 4.4 in order. -/
def spec_decide (r : SpecReport) (c : SpecComparison) : String :=
  if r.status_ok = false then "FAIL"
  else if r.min_bytes_ok = false then "FAIL"
  else if r.schema.elim false (fun p => !p.1 && !p.2) then "FAIL"
  else if r.selectors_valid.elim false (fun v => !v) then "FAIL"
  else if c.anomaly then "WARN"
  else if c.size_dropped_50pct then "WARN"
  else "INFO"

/-- Read a summary dictionary into the spec report, applying the dictionary
defaults (`valid` defaults to true, `skipped` defaults to false). -/
def spec_report_of (s : Summary) : SpecReport :=
  { status_ok := s.checks.status.getD true
    min_bytes_ok := s.checks.min_bytes.getD true
    schema := s.checks.schema.map (fun d => (d.valid.getD true, d.skipped.getD false))
    selectors_valid := s.checks.html_selectors.map (fun d => d.valid.getD true) }

/-- Read a historical dictionary into the spec comparison, applying the
dictionary defaults. -/
def spec_comparison_of (h : HistDict) : SpecComparison :=
  { anomaly := h.anomaly.getD false
    size_dropped_50pct := h.size_dropped_50pct.getD false }

/-! ## notify.py -/

/-- Observable side effects of one run: an email send attempt, a Slack
webhook attempt, or a formatted report printed to the console. -/
inductive Effect where
  | email (address : String) (title : String) (level : String)
  | slack (url : String) (title : String) (level : String)
  | console (title : String) (level : String)
deriving DecidableEq

/-- The literal dictionary `exit_codes = {"INFO": 0, "WARN": 2, "FAIL": 3}`. -/
def exit_codes : List (String × Nat) :=
  [("INFO", 0), ("WARN", 2), ("FAIL", 3)]

/-- `exit_codes.get(level, 0)`: unknown levels default to 0. -/
def level_exit_code (level : String) : Nat :=
  (exit_codes.lookup level).getD 0

/-- Channel resolution in `notify.notify`: when the environment-variable
name is truthy, look the variable up in the process environment, else the
channel stays unresolved. -/
def resolve_env (env : String → Option String) (var_name : Option String) : Option String :=
  if py_truthy var_name then env (var_name.getD "") else none

/-- External collaborators of `notify.notify`: the process environment and
whether each transport reports a successful send. -/
structure NotifyDeps where
  env : String → Option String
  email_delivers : Bool
  slack_delivers : Bool

/-- `notify.notify`: resolve both channels from the environment, try email
first, then the Slack webhook, then fall back to printing on the console;
always return the exit code mapped from the level. -/
def notify (deps : NotifyDeps) (slack_webhook_env email_env : Option String)
    (title : String) (level : String) : Nat × List Effect :=
  let webhook_url := resolve_env deps.env slack_webhook_env
  let email_address := resolve_env deps.env email_env
  let exit_code := level_exit_code level
  let email_effects :=
    if py_truthy email_address then [Effect.email (email_address.getD "") title level] else []
  if py_truthy email_address && deps.email_delivers then
    (exit_code, email_effects)
  else
    let slack_effects := email_effects ++
      (if py_truthy webhook_url then [Effect.slack (webhook_url.getD "") title level] else [])
    if py_truthy webhook_url && deps.slack_delivers then
      (exit_code, slack_effects)
    else
      (exit_code, slack_effects ++ [Effect.console title level])

/-! ## runner.py -/

/-- A successful fetch: content bytes, response headers, status code, final
URL after redirects. -/
structure FetchOk where
  content : List Nat
  headers : List (String × String)
  status_code : Int
  final_url : String

/-- A validated site configuration as produced by `config.load_config`
(every field present, defaults already applied by `_validate_site_config`).
The optional `notify` sub-keys stay optional. -/
structure SiteConfig where
  url : String
  type : String
  selectors : List String
  min_bytes : Int
  expected_columns : List String
  min_rows : Int
  content_type : Option String
  verify_ssl : Bool
  checksum_window : Int
  notify_slack_env : Option String
  notify_email_env : Option String

/-- Result of a csv or excel schema check, mirroring the result dictionary
of `checks.check_csv_schema` and `checks.check_excel_schema`. The csv
variant has no `skipped` key, so the field is an `Option`. -/
structure SchemaResult where
  valid : Bool
  found_columns : List String
  missing_columns : List String
  row_count : Int
  row_count_valid : Bool
  error : Option String
  skipped : Option Bool
deriving DecidableEq

/-- External collaborators of a single `run_health_check` invocation.
`load_config` and `fetch` are `Except` to model their Python exceptions;
the parsing oracles return `none` where the library call would raise. -/
structure RunnerDeps where
  load_config : Except String (List (String × SiteConfig))
  fetch : Except String FetchOk
  sha256 : List Nat → String
  decode_utf8 : List Nat → String
  has_bs4 : Bool
  bs4_parse : String → Option (String → Bool)
  sniff_delimiter : List Nat → Option Char
  csv_parse : List Nat → Char → Option (List String × Int)
  has_openpyxl : Bool
  excel_parse : List Nat → Option (List String × Int)
  env : String → Option String
  email_delivers : Bool
  slack_delivers : Bool
  write_succeeds : Bool

/-- `checks.check_html_contains`: decode the content, use the selector
engine when available (falling back to plain substring matching when the
parse raises or the engine is absent), one boolean per selector. -/
def check_html_contains (deps : RunnerDeps) (content : List Nat)
    (selectors : List String) : List (String × Bool) :=
  if selectors = [] then []
  else
    let html_text := deps.decode_utf8 content
    if deps.has_bs4 then
      match deps.bs4_parse html_text with
      | some found => selectors.map (fun s => (s, found s))
      | none => selectors.map (fun s => (s, py_in s html_text))
    else
      selectors.map (fun s => (s, py_in s html_text))

/-- Shared tail of the csv and excel schema checks: missing columns as the
set difference, column validity, then the minimum-row constraint which can
still force `valid` to false. -/
def apply_schema_expectations (base : SchemaResult) (expected_columns found_columns : List String)
    (row_count : Int) (min_rows : Option Int) : SchemaResult :=
  let missing := expected_columns.eraseDups.filter (fun c => !found_columns.contains c)
  let r1 := { base with
    found_columns := found_columns
    row_count := row_count
    missing_columns := missing
    valid := if expected_columns ≠ [] then missing = [] else true }
  match min_rows with
  | none => r1
  | some m =>
    if row_count ≥ m then { r1 with row_count_valid := true }
    else { r1 with row_count_valid := false, valid := false,
                   error := some "row count below minimum" }

/-- `checks.check_csv_schema`: trivially valid with nothing to check;
delimiter from the sniffer with comma fallback; a parser exception leaves
`valid` false with an error string. -/
def check_csv_schema (deps : RunnerDeps) (content : List Nat)
    (expected_columns : List String) (min_rows : Option Int) : SchemaResult :=
  let base : SchemaResult :=
    { valid := false, found_columns := [], missing_columns := [],
      row_count := 0, row_count_valid := true, error := none, skipped := none }
  if expected_columns = [] ∧ min_rows = none then { base with valid := true }
  else
    let delimiter := (deps.sniff_delimiter content).getD ','
    match deps.csv_parse content delimiter with
    | none => { base with error := some "CSV parsing error" }
    | some (found_columns, row_count) =>
      apply_schema_expectations base expected_columns found_columns row_count min_rows

/-- `checks.check_excel_schema`: skipped (with `valid` false) when openpyxl
is unavailable; otherwise the same contract as the csv check on the first
sheet. -/
def check_excel_schema (deps : RunnerDeps) (content : List Nat)
    (expected_columns : List String) (min_rows : Option Int) : SchemaResult :=
  let base : SchemaResult :=
    { valid := false, found_columns := [], missing_columns := [],
      row_count := 0, row_count_valid := true, error := none, skipped := some false }
  if !deps.has_openpyxl then
    { base with skipped := some true, error := some "openpyxl not installed - Excel check skipped" }
  else if expected_columns = [] ∧ min_rows = none then { base with valid := true }
  else
    match deps.excel_parse content with
    | none => { base with error := some "Excel parsing error" }
    | some (found_columns, row_count) =>
      apply_schema_expectations base expected_columns found_columns row_count min_rows

/-- `runner._run_checks_for_type`: common status, size and content-type
checks, then the type-specific sub-result, assembled into the summary. -/
def run_checks_for_type (deps : RunnerDeps) (cfg : SiteConfig) (fr : FetchOk) : Summary :=
  let status_ok := check_status fr.status_code
  let min_bytes_ok := check_min_bytes fr.content cfg.min_bytes
  let content_type_ok :=
    if py_truthy cfg.content_type then
      some (check_content_type fr.headers (cfg.content_type.getD ""))
    else none
  let html_selectors :=
    if cfg.type = "html" ∧ cfg.selectors ≠ [] then
      let selectors_result := check_html_contains deps fr.content cfg.selectors
      some { valid := some (selectors_result.all (·.2)), results := selectors_result }
    else none
  let schema : Option SchemaResult :=
    if (cfg.type = "csv" ∨ cfg.type = "excel") ∧ (cfg.expected_columns ≠ [] ∨ cfg.min_rows ≠ 0) then
      if cfg.type = "csv" then
        some (check_csv_schema deps fr.content cfg.expected_columns (some cfg.min_rows))
      else
        some (check_excel_schema deps fr.content cfg.expected_columns (some cfg.min_rows))
    else none
  { url := fr.final_url
    status_code := fr.status_code
    size_bytes := fr.content.length
    checks :=
      { status := some status_ok
        min_bytes := some min_bytes_ok
        content_type := content_type_ok
        schema := schema.map (fun r => { valid := some r.valid, skipped := r.skipped })
        html_selectors := html_selectors }
    row_count := schema.map (·.row_count)
    checksum := none }

/-- The historical comparison dictionary as passed to the classifier. -/
def hist_dict_of (c : Comparison) : HistDict :=
  { anomaly := some c.anomaly, size_dropped_50pct := some c.size_dropped_50pct }

/-- Outcome of one runner invocation: the exit code, the metrics file after
the run, and the observable side effects. -/
structure RunResult where
  exit_code : Nat
  store : MetricsMap
  effects : List Effect
deriving DecidableEq

/-- The `try` body of `runner.run_health_check` (steps 1 to 8): an
uncaught collaborator exception surfaces as `Except.error`. The fetch
failure is caught locally: best-effort FAIL notification unless in dry
run, then exit code 3. -/
def run_health_check_body (deps : RunnerDeps) (site_id : String) (dry_run : Bool)
    (st : MetricsMap) : Except String RunResult :=
  match deps.load_config with
  | .error e => .error e
  | .ok all_configs =>
  match all_configs.lookup site_id with
  | none => .ok { exit_code := 3, store := st, effects := [] }
  | some site_config =>
    match deps.fetch with
    | .error _ =>
      if !dry_run then
        let notify_result := notify
          { env := deps.env, email_delivers := deps.email_delivers, slack_delivers := deps.slack_delivers }
          site_config.notify_slack_env site_config.notify_email_env
          ("Health Check: " ++ site_id ++ " - Fetch Failed") "FAIL"
        .ok { exit_code := 3, store := st, effects := notify_result.2 }
      else
        .ok { exit_code := 3, store := st, effects := [] }
    | .ok fr =>
      let summary0 := run_checks_for_type deps site_config fr
      let checksum := deps.sha256 fr.content
      let summary := { summary0 with checksum := some checksum }
      let historical := compare_with_history (fr.content.length : Int) checksum site_id st
      let level := determine_level summary (hist_dict_of historical)
      let updated := update_metrics st site_id checksum (fr.content.length : Int)
        summary.row_count site_config.checksum_window deps.write_succeeds
      if !dry_run then
        let notify_result := notify
          { env := deps.env, email_delivers := deps.email_delivers, slack_delivers := deps.slack_delivers }
          site_config.notify_slack_env site_config.notify_email_env
          ("Health Check: " ++ site_id) level
        .ok { exit_code := notify_result.1, store := updated.1, effects := notify_result.2 }
      else
        .ok { exit_code := level_exit_code level, store := updated.1,
              effects := [Effect.console ("Health Check: " ++ site_id) level] }

/-- `runner.run_health_check`: the body wrapped in the top-level
`except Exception` handler, which logs and returns exit code 3. -/
def run_health_check (deps : RunnerDeps) (site_id : String) (dry_run : Bool)
    (st : MetricsMap) : RunResult :=
  match run_health_check_body deps site_id dry_run st with
  | .ok r => r
  | .error _ => { exit_code := 3, store := st, effects := [] }

/-! ## Substring test: correctness of the executable search -/

/-- The executable substring search agrees with list infix containment. -/
theorem py_in_list_iff (needle haystack : List Char) :
    py_in_list needle haystack = true ↔ needle <:+: haystack := by
  unfold py_in_list
  rw [List.any_eq_true]
  constructor
  · rintro ⟨i, -, hp⟩
    rw [List.isPrefixOf_iff_prefix] at hp
    obtain ⟨t, ht⟩ := hp
    exact ⟨haystack.take i, t, by rw [List.append_assoc, ht, List.take_append_drop]⟩
  · rintro ⟨s, t, hst⟩
    refine ⟨s.length, ?_, ?_⟩
    · rw [List.mem_range]
      have : s.length ≤ haystack.length := by
        rw [← hst]
        simp [List.length_append]
      omega
    · rw [List.isPrefixOf_iff_prefix, ← hst, List.append_assoc, List.drop_left]
      exact ⟨t, rfl⟩

/-- A string has empty character data exactly when it is the empty string. -/
theorem str_data_nil (s : String) : s.data = [] ↔ s = "" := by
  cases s with
  | mk l =>
    constructor
    · intro h
      simp only at h
      subst h
      rfl
    · intro h
      rw [h]

/-! ## C7: content-type check -/

/-- C7 counterexample: with an empty headers mapping (so no content-type
header) and the empty expected string, `check_content_type` returns true,
not false as the claim states for every expected string — Python's
`"" in ""` is vacuously true. -/
theorem c7_missing_header_counterexample :
    ¬ (check_content_type [] "" = false) := by
  decide

/-- C7 (amended): `check_content_type` decides whether the lowercased
expected value is a substring (infix of the character list) of the
lowercased content-type header value (the empty string when the header is
missing); consequently a missing content-type header yields false for
every nonempty expected string, while the empty expected string matches
vacuously. -/
theorem c7_content_type_check (headers : List (String × String)) (expected : String) :
    (check_content_type headers expected = true ↔
      (expected.data.map Char.toLower) <:+:
        (((assoc_get headers "Content-Type").getD "").data.map Char.toLower))
    ∧ (assoc_get headers "Content-Type" = none → expected ≠ "" →
        check_content_type headers expected = false) := by
  constructor
  · unfold check_content_type py_in str_lower
    exact py_in_list_iff _ _
  · intro hnone hne
    unfold check_content_type py_in str_lower
    rw [hnone]
    simp only [Option.getD]
    rw [← Bool.not_eq_true, py_in_list_iff]
    intro hinf
    have h0 : (("" : String).data.map Char.toLower) = ([] : List Char) := by decide
    rw [h0, List.infix_nil, List.map_eq_nil_iff] at hinf
    exact hne ((str_data_nil expected).mp hinf)

/-- C7 witness: a missing content-type header with the nonempty expected
string "html" makes the check fail, by the amended theorem; and a
lowercase expected value is found inside an uppercase header value. -/
theorem c7_content_type_check_witness :
    (assoc_get ([] : List (String × String)) "Content-Type" = none ∧ "html" ≠ "" ∧
      check_content_type [] "html" = false)
    ∧ check_content_type [("Content-Type", "TEXT/HTML; charset=utf-8")] "text/html" = true := by
  refine ⟨⟨rfl, by decide, (c7_content_type_check [] "html").2 rfl (by decide)⟩, ?_⟩
  have := (c7_content_type_check [("Content-Type", "TEXT/HTML; charset=utf-8")] "text/html").1
  rw [this]
  decide

/-! ## C1: classifier precedence -/

/-- C1: `_determine_level` computes exactly the severity of the strict
spec precedence (status FAIL, min-bytes FAIL, schema FAIL unless skipped,
selector FAIL, anomaly WARN, size-drop WARN, else INFO) on the report read
out of the summary dictionary; and a schema sub-result whose `skipped`
flag is true never by itself produces FAIL or WARN: with every other
signal clean the level is INFO. -/
theorem c1_classifier_precedence (s : Summary) (h : HistDict) :
    determine_level s h = spec_decide (spec_report_of s) (spec_comparison_of h)
    ∧ (s.checks.status.getD true = true →
       s.checks.min_bytes.getD true = true →
       s.checks.schema.map (fun d => d.skipped.getD false) = some true →
       s.checks.html_selectors.map (fun d => d.valid.getD true) ≠ some false →
       h.anomaly.getD false = false →
       h.size_dropped_50pct.getD false = false →
       determine_level s h = "INFO") := by
  constructor
  · unfold determine_level spec_decide spec_report_of spec_comparison_of
    cases hsch : s.checks.schema <;> cases hsel : s.checks.html_selectors <;>
      simp [hsch, hsel, schema_fails, selectors_fail]
  · intro h1 h2 h3 h4 h5 h6
    unfold determine_level
    cases hsch : s.checks.schema <;> cases hsel : s.checks.html_selectors <;>
      simp_all [schema_fails, selectors_fail]

/-- Concrete summary for the C1 witness: all live checks pass except a
schema sub-result with `valid=false, skipped=true`; history is clean. -/
def c1_summary : Summary :=
  { url := "https://example.com"
    status_code := 200
    size_bytes := 10
    checks :=
      { status := some true
        min_bytes := some true
        content_type := none
        schema := some { valid := some false, skipped := some true }
        html_selectors := none }
    row_count := none
    checksum := none }

/-- Concrete clean history for the C1 witness. -/
def c1_hist : HistDict :=
  { anomaly := some false, size_dropped_50pct := some false }

/-- C1 witness: on the concrete summary whose only bad signal is a skipped
schema result, the classifier agrees with the spec precedence and returns
INFO. -/
theorem c1_classifier_precedence_witness :
    (c1_summary.checks.status.getD true = true
      ∧ c1_summary.checks.min_bytes.getD true = true
      ∧ c1_summary.checks.schema.map (fun d => d.skipped.getD false) = some true
      ∧ c1_summary.checks.html_selectors.map (fun d => d.valid.getD true) ≠ some false
      ∧ c1_hist.anomaly.getD false = false
      ∧ c1_hist.size_dropped_50pct.getD false = false)
    ∧ determine_level c1_summary c1_hist
        = spec_decide (spec_report_of c1_summary) (spec_comparison_of c1_hist)
    ∧ determine_level c1_summary c1_hist = "INFO" := by
  refine ⟨⟨by decide, by decide, by decide, by decide, by decide, by decide⟩, ?_, ?_⟩
  · exact (c1_classifier_precedence c1_summary c1_hist).1
  · exact (c1_classifier_precedence c1_summary c1_hist).2 (by decide) (by decide)
      (by decide) (by decide) (by decide) (by decide)

/-! ## C3: historical comparison -/

/-- C3: with no prior record the comparison is the all-clear zero result;
with a prior record, `changed` is exactly the checksum inequality, the
percentage size change (and the 50 percent drop flag derived from it) is
computed exactly when the prior size is positive and stays at its zero
value otherwise, and `anomaly = changed AND size_dropped_50pct`; on prior
size 1000 with checksum "abc" versus current size 400 with checksum "def"
the result is (changed, -60, dropped, anomaly). -/
theorem c3_compare_with_history
    (st1 st2 : MetricsMap) (site1 site2 : String) (h : SiteMetrics)
    (cur_sz : Int) (cur_ck : String)
    (hnone : get_site_metrics st1 site1 = none)
    (hsome : get_site_metrics st2 site2 = some h) :
    compare_with_history cur_sz cur_ck site1 st1
        = { changed := false, size_change_pct := 0, size_dropped_50pct := false, anomaly := false }
    ∧ (compare_with_history cur_sz cur_ck site2 st2).changed
        = decide (h.checksum ≠ some cur_ck)
    ∧ (0 < h.last_size.getD 0 →
        (compare_with_history cur_sz cur_ck site2 st2).size_change_pct
          = ((cur_sz - h.last_size.getD 0 : Int) : ℚ) / ((h.last_size.getD 0 : Int) : ℚ) * 100
        ∧ (compare_with_history cur_sz cur_ck site2 st2).size_dropped_50pct
          = decide ((compare_with_history cur_sz cur_ck site2 st2).size_change_pct < -50))
    ∧ (h.last_size.getD 0 ≤ 0 →
        (compare_with_history cur_sz cur_ck site2 st2).size_change_pct = 0
        ∧ (compare_with_history cur_sz cur_ck site2 st2).size_dropped_50pct = false)
    ∧ (compare_with_history cur_sz cur_ck site2 st2).anomaly
        = ((compare_with_history cur_sz cur_ck site2 st2).changed
            && (compare_with_history cur_sz cur_ck site2 st2).size_dropped_50pct)
    ∧ compare_with_history 400 "def" "s"
        [("s", { checksum := some "abc", last_size := some 1000,
                 last_rowcount := none, history_checksums := some ["abc"] })]
        = { changed := true, size_change_pct := -60, size_dropped_50pct := true, anomaly := true } := by
  have hpct : 0 < h.last_size.getD 0 →
      (compare_with_history cur_sz cur_ck site2 st2).size_change_pct
        = ((cur_sz - h.last_size.getD 0 : Int) : ℚ) / ((h.last_size.getD 0 : Int) : ℚ) * 100 := by
    intro hpos
    unfold compare_with_history
    rw [hsome]
    dsimp only
    rw [if_pos hpos]
  have hdrop : 0 < h.last_size.getD 0 →
      (compare_with_history cur_sz cur_ck site2 st2).size_dropped_50pct
        = decide (((cur_sz - h.last_size.getD 0 : Int) : ℚ) / ((h.last_size.getD 0 : Int) : ℚ) * 100 < -50) := by
    intro hpos
    unfold compare_with_history
    rw [hsome]
    dsimp only
    rw [if_pos hpos]
  refine ⟨?_, ?_, ?_, ?_, ?_, ?_⟩
  · unfold compare_with_history
    rw [hnone]
  · unfold compare_with_history
    rw [hsome]
  · intro hpos
    exact ⟨hpct hpos, by rw [hpct hpos]; exact hdrop hpos⟩
  · intro hle
    unfold compare_with_history
    rw [hsome]
    dsimp only
    rw [if_neg (by omega)]
    exact ⟨rfl, rfl⟩
  · unfold compare_with_history
    rw [hsome]
  · unfold compare_with_history get_site_metrics assoc_get
    simp only [List.find?, Comparison.mk.injEq]
    norm_num
    decide

/-- Concrete prior record for the C3 witness. -/
def c3_metrics : SiteMetrics :=
  { checksum := some "abc", last_size := some 1000,
    last_rowcount := none, history_checksums := some ["abc"] }

/-- Concrete metrics file for the C3 witness. -/
def c3_store : MetricsMap := [("s", c3_metrics)]

/-- C3 witness: the theorem applied to the empty metrics file and to the
concrete prior record of size 1000. -/
theorem c3_compare_with_history_witness :
    (get_site_metrics ([] : MetricsMap) "nosite" = none)
    ∧ (get_site_metrics c3_store "s" = some c3_metrics)
    ∧ (0 < c3_metrics.last_size.getD 0)
    ∧ compare_with_history 400 "def" "nosite" []
        = { changed := false, size_change_pct := 0, size_dropped_50pct := false, anomaly := false }
    ∧ (compare_with_history 400 "def" "s" c3_store).changed
        = decide (c3_metrics.checksum ≠ some "def")
    ∧ (compare_with_history 400 "def" "s" c3_store).size_change_pct
        = ((400 - c3_metrics.last_size.getD 0 : Int) : ℚ) / ((c3_metrics.last_size.getD 0 : Int) : ℚ) * 100 := by
  have ht := c3_compare_with_history [] c3_store "nosite" "s" c3_metrics 400 "def" rfl rfl
  exact ⟨rfl, rfl, by decide, ht.1, ht.2.1, (ht.2.2.1 (by decide)).1⟩

/-! ## C4: checksum history maintenance -/

/-- Natural-number form of the history update, for a positive window. -/
def upd_hist_nat (history : List String) (c : String) (W : Nat) : List String :=
  let h1 := if history = [] ∨ history.getLast? ≠ some c then history ++ [c] else history
  if h1.length > W then h1.drop (h1.length - W) else h1

/-- For a positive window the integer-window update agrees with the
natural-number form. -/
theorem upd_hist_eq_nat (h : List String) (c : String) (w : Int) (hw : 1 ≤ w) :
    upd_hist h c w = upd_hist_nat h c w.toNat := by
  unfold upd_hist upd_hist_nat py_tail_slice
  dsimp only
  split_ifs <;> first | rfl | (exfalso; omega)

/-- After an update with a positive window the most recent entry is the
updated checksum. -/
theorem upd_hist_nat_getLast (h : List String) (c : String) (W : Nat) (hW : 1 ≤ W) :
    (upd_hist_nat h c W).getLast? = some c := by
  unfold upd_hist_nat
  dsimp only
  by_cases hcond : h = [] ∨ h.getLast? ≠ some c
  · rw [if_pos hcond]
    have hlast : (h ++ [c]).getLast? = some c := by
      rw [List.getLast?_append]
      rfl
    split_ifs with htr
    · rw [List.getLast?_drop, if_neg (by simp at htr ⊢; omega)]
      exact hlast
    · exact hlast
  · rw [if_neg hcond]
    push_neg at hcond
    split_ifs with htr
    · rw [List.getLast?_drop, if_neg (by omega)]
      exact hcond.2
    · exact hcond.2

/-- After an update with a positive window the history holds at most the
window many entries. -/
theorem upd_hist_nat_length (h : List String) (c : String) (W : Nat) (hW : 1 ≤ W) :
    (upd_hist_nat h c W).length ≤ W := by
  unfold upd_hist_nat
  dsimp only
  split_ifs <;> (try simp only [List.length_drop]) <;> omega

/-- A second update with the same checksum leaves the history unchanged. -/
theorem upd_hist_nat_idem (h : List String) (c : String) (W : Nat) (hW : 1 ≤ W) :
    upd_hist_nat (upd_hist_nat h c W) c W = upd_hist_nat h c W := by
  have hlast := upd_hist_nat_getLast h c W hW
  have hlen := upd_hist_nat_length h c W hW
  set g := upd_hist_nat h c W with hg
  have hne : ¬(g = [] ∨ g.getLast? ≠ some c) := by
    push_neg
    refine ⟨?_, hlast⟩
    intro h0
    rw [h0] at hlast
    simp at hlast
  conv_lhs => unfold upd_hist_nat
  dsimp only
  rw [if_neg hne, if_neg (by omega)]

/-- Updating an empty history yields the singleton history. -/
theorem upd_hist_nat_fresh (c : String) (W : Nat) (hW : 1 ≤ W) :
    upd_hist_nat [] c W = [c] := by
  unfold upd_hist_nat
  rw [if_pos (Or.inl rfl)]
  simp only [List.nil_append, List.length_cons, List.length_nil]
  rw [if_neg (by omega)]

/-- Folding the history update over a sequence of pairwise-distinct
consecutive checksums retains exactly the most recent window of them,
most recent last. -/
theorem run_hist_eq (cs : List String) (W : Nat) (hW : 1 ≤ W)
    (hcs : cs.Chain' (· ≠ ·)) :
    cs.foldl (fun h c => upd_hist_nat h c W) [] = cs.drop (cs.length - W) := by
  induction cs using List.reverseRecOn with
  | nil => simp
  | append_singleton l a ih =>
    rw [List.chain'_append] at hcs
    have hl := hcs.1
    have hlast_ne : ∀ x ∈ l.getLast?, x ≠ a := fun x hx => hcs.2.2 x hx a rfl
    rw [List.foldl_append, List.foldl_cons, List.foldl_nil, ih hl]
    rcases eq_or_ne l [] with rfl | hlne
    · simp only [List.length_nil, Nat.zero_sub, List.drop_nil, List.nil_append,
        List.length_cons]
      rw [upd_hist_nat_fresh a W hW]
      have hz : 0 + 1 - W = 0 := by omega
      rw [hz, List.drop_zero]
    · have hlpos : 0 < l.length := List.length_pos.mpr hlne
      set g := l.drop (l.length - W) with hg
      have hglen : g.length = l.length - (l.length - W) := List.length_drop _ _
      have hglast : g.getLast? = l.getLast? := by
        rw [hg, List.getLast?_drop, if_neg (by omega)]
      have hcond : g.getLast? ≠ some a := by
        cases hx : l.getLast? with
        | none =>
          rw [List.getLast?_eq_none_iff] at hx
          exact absurd hx hlne
        | some x =>
          rw [hglast, hx]
          intro heq
          exact hlast_ne x (by rw [hx]; rfl) (by injection heq)
      unfold upd_hist_nat
      dsimp only
      rw [if_pos (Or.inr hcond)]
      by_cases hLW : W ≤ l.length
      · rw [if_pos (by simp only [List.length_append, List.length_singleton]; omega)]
        have e1 : (g ++ [a]).length - W = 1 := by
          simp only [List.length_append, List.length_singleton]
          omega
        rw [e1, List.drop_append_eq_append_drop]
        have e2 : 1 - g.length = 0 := by omega
        rw [e2, List.drop_zero]
        have e3 : (l ++ [a]).length - W = l.length + 1 - W := by
          simp only [List.length_append, List.length_singleton]
        rw [e3, List.drop_append_eq_append_drop]
        have e4 : l.length + 1 - W - l.length = 0 := by omega
        rw [e4, List.drop_zero]
        rw [hg, List.drop_drop]
        have e5 : l.length - W + 1 = l.length + 1 - W := by omega
        rw [e5]
      · rw [if_neg (by simp only [List.length_append, List.length_singleton]; omega)]
        have hz : l.length - W = 0 := by omega
        have hg0 : g = l := by rw [hg, hz, List.drop_zero]
        have hz2 : (l ++ [a]).length - W = 0 := by
          simp only [List.length_append, List.length_singleton]
          omega
        rw [hg0, hz2, List.drop_zero]

/-- Checksum history of a site record, empty when the key is absent. -/
def hist_of (sm : SiteMetrics) : List String :=
  sm.history_checksums.getD []

/-- The history field written by `update_site` is exactly the history
update applied to the prior history. -/
theorem update_site_hist (old : Option SiteMetrics) (c : String) (sz : Int)
    (row : Option Int) (w : Int) :
    (update_site old c sz row w).history_checksums
      = some (upd_hist ((old.map hist_of).getD []) c w) := by
  cases old <;> cases row <;> rfl

/-- Bridge from `update_site` to the natural-number history update. -/
theorem update_site_hist_nat (old : Option SiteMetrics) (c : String) (sz : Int)
    (row : Option Int) (w : Int) (hw : 1 ≤ w) :
    hist_of (update_site old c sz row w)
      = upd_hist_nat ((old.map hist_of).getD []) c w.toNat := by
  have h2 : hist_of (update_site old c sz row w)
      = ((update_site old c sz row w).history_checksums).getD [] := rfl
  rw [h2, update_site_hist, Option.getD_some, upd_hist_eq_nat _ _ _ hw]

/-- C4: with a positive window, a second consecutive update with the same
checksum leaves the history unchanged (so two same-checksum updates add
exactly one entry to a fresh history); every update leaves at most the
window many entries; and folding updates over a sequence of consecutive
distinct checksums from a fresh record retains exactly the most recent
window of them, most recent last. -/
theorem c4_history_window (old : Option SiteMetrics) (ck : String) (sz : Int)
    (row : Option Int) (w : Int) (cs : List String)
    (hw : 1 ≤ w) (hcs : cs.Chain' (· ≠ ·)) :
    hist_of (update_site (some (update_site old ck sz row w)) ck sz row w)
        = hist_of (update_site old ck sz row w)
    ∧ (hist_of (update_site old ck sz row w)).length ≤ w.toNat
    ∧ hist_of (update_site none ck sz row w) = [ck]
    ∧ ((cs.foldl (fun acc c => some (update_site acc c sz row w)) none).map hist_of).getD []
        = cs.drop (cs.length - w.toNat) := by
  have hW : 1 ≤ w.toNat := by omega
  have hbridge : ∀ (o : Option SiteMetrics) (c : String),
      hist_of (update_site o c sz row w)
        = upd_hist_nat ((o.map hist_of).getD []) c w.toNat :=
    fun o c => update_site_hist_nat o c sz row w hw
  refine ⟨?_, ?_, ?_, ?_⟩
  · rw [hbridge, hbridge]
    simp only [Option.map_some', Option.getD_some]
    rw [hbridge]
    exact upd_hist_nat_idem _ ck w.toNat hW
  · rw [hbridge]
    exact upd_hist_nat_length _ ck w.toNat hW
  · rw [hbridge]
    simp only [Option.map_none', Option.getD_none]
    exact upd_hist_nat_fresh ck w.toNat hW
  · have hfold : ∀ (cs' : List String) (acc : Option SiteMetrics),
        ((cs'.foldl (fun acc c => some (update_site acc c sz row w)) acc).map hist_of).getD []
          = cs'.foldl (fun h c => upd_hist_nat h c w.toNat) ((acc.map hist_of).getD []) := by
      intro cs'
      induction cs' with
      | nil => intro acc; rfl
      | cons c cs'' ih =>
        intro acc
        simp only [List.foldl_cons]
        rw [ih]
        congr 1
        simp only [Option.map_some', Option.getD_some]
        exact hbridge acc c
    rw [hfold cs none]
    simp only [Option.map_none', Option.getD_none]
    exact run_hist_eq cs w.toNat hW hcs

/-- C4 witness: window 2 over three distinct checksums keeps the last two;
repeating a checksum adds nothing; a fresh history gets one entry. -/
theorem c4_history_window_witness :
    ((1 : Int) ≤ 2 ∧ (["c1", "c2", "c3"] : List String).Chain' (· ≠ ·))
    ∧ (hist_of (update_site (some (update_site none "a" 1 none 2)) "a" 1 none 2)
        = hist_of (update_site none "a" 1 none 2)
      ∧ (hist_of (update_site none "a" 1 none 2)).length ≤ (2 : Int).toNat
      ∧ hist_of (update_site none "a" 1 none 2) = ["a"]
      ∧ (((["c1", "c2", "c3"] : List String).foldl
            (fun acc c => some (update_site acc c 1 none 2)) none).map hist_of).getD []
          = (["c1", "c2", "c3"] : List String).drop ((["c1", "c2", "c3"] : List String).length - (2 : Int).toNat)) :=
  ⟨⟨by decide, by simp [List.chain'_cons]⟩,
    c4_history_window none "a" 1 none 2 ["c1", "c2", "c3"] (by decide)
      (by simp [List.chain'_cons])⟩

/-! ## C9: update touches only its own key -/

/-- Replacing the entries under one key leaves `find?` for a different key
unchanged. -/
theorem find?_map_set_ne {α : Type} (t : List (String × α)) (k k' : String) (v : α)
    (hne : k' ≠ k) :
    List.find? (fun p => p.1 == k') (t.map (fun p => if p.1 == k then (k, v) else p))
      = List.find? (fun p => p.1 == k') t := by
  induction t with
  | nil => rfl
  | cons p t ih =>
    rw [List.map_cons]
    by_cases hpk : p.1 = k
    · have hh : (if (p.1 == k) = true then (k, v) else p) = (k, v) := by simp [hpk]
      rw [hh, List.find?_cons_of_neg _ (by simp only [beq_iff_eq]; exact Ne.symm hne),
          List.find?_cons_of_neg _ (by simp only [beq_iff_eq]; rw [hpk]; exact Ne.symm hne)]
      exact ih
    · have hh : (if (p.1 == k) = true then (k, v) else p) = p := by simp [hpk]
      rw [hh]
      by_cases hpk' : p.1 = k'
      · rw [List.find?_cons_of_pos _ (by simp only [beq_iff_eq]; exact hpk'),
            List.find?_cons_of_pos _ (by simp only [beq_iff_eq]; exact hpk')]
      · rw [List.find?_cons_of_neg _ (by simp only [beq_iff_eq]; exact hpk'),
            List.find?_cons_of_neg _ (by simp only [beq_iff_eq]; exact hpk')]
        exact ih

/-- Setting one key of an association list leaves every lookup under a
different key unchanged. -/
theorem assoc_get_set_ne {α : Type} (m : List (String × α)) (k k' : String) (v : α)
    (hne : k' ≠ k) : assoc_get (assoc_set m k v) k' = assoc_get m k' := by
  unfold assoc_set
  split_ifs with hmem
  · unfold assoc_get
    rw [find?_map_set_ne m k k' v hne]
  · unfold assoc_get
    rw [List.find?_append]
    cases hfind : m.find? (fun p => p.1 == k') with
    | some q => rfl
    | none =>
      rw [List.find?_cons_of_neg _ (by simp only [beq_iff_eq]; exact Ne.symm hne)]
      rfl

/-- C9: `update_metrics` leaves the record of every other site unchanged,
whether or not the whole-file write succeeds. -/
theorem c9_update_metrics_frame (st : MetricsMap) (site_id ck : String) (sz : Int)
    (row : Option Int) (w : Int) (wr : Bool) (other : String)
    (hne : other ≠ site_id) :
    assoc_get (update_metrics st site_id ck sz row w wr).1 other = assoc_get st other := by
  unfold update_metrics save_metrics
  dsimp only
  split_ifs with hwr
  · exact assoc_get_set_ne st site_id other _ hne
  · rfl

/-- Concrete two-site metrics file for the C9 witness. -/
def c9_store : MetricsMap :=
  [("siteA", { checksum := some "a1", last_size := some 5,
               last_rowcount := none, history_checksums := some ["a1"] }),
   ("siteB", { checksum := some "b1", last_size := some 7,
               last_rowcount := none, history_checksums := some ["b1"] })]

/-- C9 witness: updating siteA leaves the lookup of siteB untouched. -/
theorem c9_update_metrics_frame_witness :
    ("siteB" ≠ "siteA")
    ∧ assoc_get (update_metrics c9_store "siteA" "a2" 9 none 10 true).1 "siteB"
        = assoc_get c9_store "siteB" :=
  ⟨by decide, c9_update_metrics_frame c9_store "siteA" "a2" 9 none 10 true "siteB" (by decide)⟩

/-! ## C6 and C10: notifier exit codes and fallback -/

/-- C6: `notify` always returns the code the level maps to — 0 for INFO,
2 for WARN, 3 for FAIL — independently of channel delivery; and when
neither channel environment variable resolves, its only side effect is
the console print of the formatted report. -/
theorem c6_notify_exit_code (deps : NotifyDeps) (slack_webhook_env email_env : Option String)
    (title : String) (level : String) :
    (level = "INFO" → (notify deps slack_webhook_env email_env title level).1 = 0)
    ∧ (level = "WARN" → (notify deps slack_webhook_env email_env title level).1 = 2)
    ∧ (level = "FAIL" → (notify deps slack_webhook_env email_env title level).1 = 3)
    ∧ (resolve_env deps.env email_env = none →
       resolve_env deps.env slack_webhook_env = none →
       (notify deps slack_webhook_env email_env title level).2
         = [Effect.console title level]) := by
  have hfst : (notify deps slack_webhook_env email_env title level).1
      = level_exit_code level := by
    unfold notify
    dsimp only
    split_ifs <;> rfl
  refine ⟨?_, ?_, ?_, ?_⟩
  · intro h
    rw [hfst, h]
    rfl
  · intro h
    rw [hfst, h]
    rfl
  · intro h
    rw [hfst, h]
    rfl
  · intro hemail hslack
    unfold notify
    dsimp only
    rw [hemail, hslack]
    rfl

/-- C6 witness: with an environment resolving nothing, notify of WARN
returns 2 and prints to the console only. -/
theorem c6_notify_exit_code_witness :
    ("WARN" = "WARN"
      ∧ resolve_env (fun _ => none) (some "MAIL_ENV") = none
      ∧ resolve_env (fun _ => none) (some "HOOK_ENV") = none)
    ∧ (notify { env := fun _ => none, email_delivers := false, slack_delivers := false }
        (some "HOOK_ENV") (some "MAIL_ENV") "t" "WARN").1 = 2
    ∧ (notify { env := fun _ => none, email_delivers := false, slack_delivers := false }
        (some "HOOK_ENV") (some "MAIL_ENV") "t" "WARN").2 = [Effect.console "t" "WARN"] := by
  have h := c6_notify_exit_code
    { env := fun _ => none, email_delivers := false, slack_delivers := false }
    (some "HOOK_ENV") (some "MAIL_ENV") "t" "WARN"
  exact ⟨⟨rfl, rfl, rfl⟩, (h.2.1) rfl, (h.2.2.2) rfl rfl⟩

/-- C10: a level outside INFO, WARN, FAIL falls through the exit-code
dictionary to the default 0, the same code INFO gets. -/
theorem c10_notify_unknown_level (deps : NotifyDeps)
    (slack_webhook_env email_env : Option String) (title : String) (level : String)
    (hlevel : level ∉ (["INFO", "WARN", "FAIL"] : List String)) :
    (notify deps slack_webhook_env email_env title level).1 = 0
    ∧ (notify deps slack_webhook_env email_env title "INFO").1 = 0 := by
  have hfst : ∀ lv, (notify deps slack_webhook_env email_env title lv).1
      = level_exit_code lv := by
    intro lv
    unfold notify
    dsimp only
    split_ifs <;> rfl
  simp only [List.mem_cons, List.mem_singleton] at hlevel
  push_neg at hlevel
  refine ⟨?_, by rw [hfst]; rfl⟩
  rw [hfst]
  have b1 : (level == "INFO") = false := beq_eq_false_iff_ne.mpr hlevel.1
  have b2 : (level == "WARN") = false := beq_eq_false_iff_ne.mpr hlevel.2.1
  have b3 : (level == "FAIL") = false := beq_eq_false_iff_ne.mpr hlevel.2.2.1
  unfold level_exit_code exit_codes
  simp [List.lookup, b1, b2, b3]

/-- C10 witness: the unknown level "DEBUG" yields exit code 0, as INFO does. -/
theorem c10_notify_unknown_level_witness :
    ("DEBUG" ∉ (["INFO", "WARN", "FAIL"] : List String))
    ∧ (notify { env := fun _ => none, email_delivers := false, slack_delivers := false }
        none none "t" "DEBUG").1 = 0
    ∧ (notify { env := fun _ => none, email_delivers := false, slack_delivers := false }
        none none "t" "INFO").1 = 0 := by
  have h := c10_notify_unknown_level
    { env := fun _ => none, email_delivers := false, slack_delivers := false }
    none none "t" "DEBUG" (by decide)
  exact ⟨by decide, h.1, h.2⟩

/-! ## Runner claims: C5, C8, C2 -/

/-- `notify` returns the severity-mapped exit code on every control path. -/
theorem notify_fst (deps : NotifyDeps) (slack_webhook_env email_env : Option String)
    (title : String) (level : String) :
    (notify deps slack_webhook_env email_env title level).1 = level_exit_code level := by
  unfold notify
  dsimp only
  split_ifs <;> rfl

/-- The classifier only ever returns INFO, WARN or FAIL. -/
theorem determine_level_cases (s : Summary) (h : HistDict) :
    determine_level s h = "INFO" ∨ determine_level s h = "WARN"
      ∨ determine_level s h = "FAIL" := by
  unfold determine_level
  dsimp only
  split_ifs <;>
    first
      | (left; rfl)
      | (right; left; rfl)
      | (right; right; rfl)

/-- The severity level computed by a successful run: classifier applied to
the summary (with attached checksum) and the historical comparison. -/
def run_level (deps : RunnerDeps) (cfg : SiteConfig) (fr : FetchOk)
    (site_id : String) (st : MetricsMap) : String :=
  determine_level
    { run_checks_for_type deps cfg fr with checksum := some (deps.sha256 fr.content) }
    (hist_dict_of (compare_with_history (fr.content.length : Int) (deps.sha256 fr.content) site_id st))

/-- On a successful fetch the exit code is the code of the computed level,
in both dry-run and normal mode. -/
theorem run_code_eq (deps : RunnerDeps) (site_id : String) (st : MetricsMap)
    (cfgs : List (String × SiteConfig)) (cfg : SiteConfig) (fr : FetchOk) (dry : Bool)
    (hl : deps.load_config = .ok cfgs) (hk : cfgs.lookup site_id = some cfg)
    (hf : deps.fetch = .ok fr) :
    (run_health_check deps site_id dry st).exit_code
      = level_exit_code (run_level deps cfg fr site_id st) := by
  unfold run_health_check run_health_check_body run_level
  simp only [hl, hk, hf]
  cases dry with
  | false => exact notify_fst _ _ _ _ _
  | true => rfl

/-- On a successful fetch both modes leave the same metrics file: the one
produced by the unconditional history update. -/
theorem run_store_eq (deps : RunnerDeps) (site_id : String) (st : MetricsMap)
    (cfgs : List (String × SiteConfig)) (cfg : SiteConfig) (fr : FetchOk) (dry : Bool)
    (hl : deps.load_config = .ok cfgs) (hk : cfgs.lookup site_id = some cfg)
    (hf : deps.fetch = .ok fr) :
    (run_health_check deps site_id dry st).store
      = (update_metrics st site_id (deps.sha256 fr.content) (fr.content.length : Int)
          (run_checks_for_type deps cfg fr).row_count cfg.checksum_window
          deps.write_succeeds).1 := by
  unfold run_health_check run_health_check_body
  simp only [hl, hk, hf]
  cases dry <;> rfl

/-- In dry-run mode the only side effect of a successful run is the console
print of the report at the computed level. -/
theorem run_dry_effects (deps : RunnerDeps) (site_id : String) (st : MetricsMap)
    (cfgs : List (String × SiteConfig)) (cfg : SiteConfig) (fr : FetchOk)
    (hl : deps.load_config = .ok cfgs) (hk : cfgs.lookup site_id = some cfg)
    (hf : deps.fetch = .ok fr) :
    (run_health_check deps site_id true st).effects
      = [Effect.console ("Health Check: " ++ site_id) (run_level deps cfg fr site_id st)] := by
  unfold run_health_check run_health_check_body run_level
  simp only [hl, hk, hf]
  rfl

/-- C5: the runner never surfaces an exception: its exit code is always one
of 0, 2, 3; a site id absent from the loaded configuration returns 3 at
once with no side effect (in particular no notification attempt); and an
exception escaping the body is converted into exit code 3 at the top
level. -/
theorem c5_runner_never_raises (deps : RunnerDeps) (site_id : String) (dry_run : Bool)
    (st : MetricsMap) (cfgs : List (String × SiteConfig)) (e : String) :
    ((run_health_check deps site_id dry_run st).exit_code = 0
      ∨ (run_health_check deps site_id dry_run st).exit_code = 2
      ∨ (run_health_check deps site_id dry_run st).exit_code = 3)
    ∧ (deps.load_config = .ok cfgs → cfgs.lookup site_id = none →
        run_health_check deps site_id dry_run st
          = { exit_code := 3, store := st, effects := [] })
    ∧ (run_health_check_body deps site_id dry_run st = .error e →
        (run_health_check deps site_id dry_run st).exit_code = 3) := by
  refine ⟨?_, ?_, ?_⟩
  · cases hl : deps.load_config with
    | error e2 =>
      refine Or.inr (Or.inr ?_)
      unfold run_health_check run_health_check_body
      simp only [hl]
    | ok cfgs2 =>
      cases hk : cfgs2.lookup site_id with
      | none =>
        refine Or.inr (Or.inr ?_)
        unfold run_health_check run_health_check_body
        simp only [hl, hk]
      | some cfg =>
        cases hf : deps.fetch with
        | error e3 =>
          refine Or.inr (Or.inr ?_)
          unfold run_health_check run_health_check_body
          simp only [hl, hk, hf]
          cases dry_run <;> rfl
        | ok fr =>
          have hcode := run_code_eq deps site_id st cfgs2 cfg fr dry_run hl hk hf
          rcases determine_level_cases
              { run_checks_for_type deps cfg fr with checksum := some (deps.sha256 fr.content) }
              (hist_dict_of (compare_with_history (fr.content.length : Int)
                (deps.sha256 fr.content) site_id st)) with hlv | hlv | hlv
          · refine Or.inl ?_
            rw [hcode]
            unfold run_level
            rw [hlv]
            rfl
          · refine Or.inr (Or.inl ?_)
            rw [hcode]
            unfold run_level
            rw [hlv]
            rfl
          · refine Or.inr (Or.inr ?_)
            rw [hcode]
            unfold run_level
            rw [hlv]
            rfl
  · intro hload hlook
    unfold run_health_check run_health_check_body
    simp only [hload, hlook]
  · intro hbody
    unfold run_health_check
    rw [hbody]

/-- A dependency record for concrete runs: explicit load and fetch
outcomes, inert parsing and notification oracles. -/
def test_deps (lc : Except String (List (String × SiteConfig)))
    (fe : Except String FetchOk) (ws : Bool) : RunnerDeps :=
  { load_config := lc
    fetch := fe
    sha256 := fun _ => "d41d8cd98f00b204e9800998ecf8427e"
    decode_utf8 := fun _ => ""
    has_bs4 := false
    bs4_parse := fun _ => none
    sniff_delimiter := fun _ => none
    csv_parse := fun _ _ => none
    has_openpyxl := false
    excel_parse := fun _ => none
    env := fun _ => none
    email_delivers := false
    slack_delivers := false
    write_succeeds := ws }

/-- A successful fetch used by the concrete runner scenarios. -/
def c5_fetch_ok : FetchOk :=
  { content := [104, 105], headers := [], status_code := 200,
    final_url := "https://example.com/x" }

/-- C5 witness: a failing config load is converted to exit code 3, and a
loaded configuration without the requested site returns 3 with no side
effect. -/
theorem c5_runner_never_raises_witness :
    (run_health_check_body (test_deps (.error "boom") (.ok c5_fetch_ok) true) "site" false []
        = .error "boom"
      ∧ (run_health_check (test_deps (.error "boom") (.ok c5_fetch_ok) true) "site" false []).exit_code = 3)
    ∧ ((test_deps (.ok []) (.ok c5_fetch_ok) true).load_config
        = .ok ([] : List (String × SiteConfig))
      ∧ ([] : List (String × SiteConfig)).lookup "site" = none
      ∧ run_health_check (test_deps (.ok []) (.ok c5_fetch_ok) true) "site" false []
          = { exit_code := 3, store := [], effects := [] }) := by
  have hA := c5_runner_never_raises (test_deps (.error "boom") (.ok c5_fetch_ok) true)
    "site" false [] [] "boom"
  have hB := c5_runner_never_raises (test_deps (.ok []) (.ok c5_fetch_ok) true)
    "site" false [] [] "unused"
  exact ⟨⟨rfl, hA.2.2 rfl⟩, ⟨rfl, rfl, hB.2.1 rfl rfl⟩⟩

/-- C8: for the same fetched content, configuration and prior history, the
dry-run and normal invocations return the same exit code and leave the same
metrics file — the one produced by the unconditional history update — and
the dry run performs only the console print of the report. -/
theorem c8_dry_run_refinement (deps : RunnerDeps) (site_id : String) (st : MetricsMap)
    (cfgs : List (String × SiteConfig)) (cfg : SiteConfig) (fr : FetchOk)
    (hl : deps.load_config = .ok cfgs) (hk : cfgs.lookup site_id = some cfg)
    (hf : deps.fetch = .ok fr) :
    (run_health_check deps site_id true st).exit_code
        = (run_health_check deps site_id false st).exit_code
    ∧ (run_health_check deps site_id true st).store
        = (run_health_check deps site_id false st).store
    ∧ (run_health_check deps site_id true st).effects
        = [Effect.console ("Health Check: " ++ site_id) (run_level deps cfg fr site_id st)]
    ∧ (run_health_check deps site_id true st).store
        = (update_metrics st site_id (deps.sha256 fr.content) (fr.content.length : Int)
            (run_checks_for_type deps cfg fr).row_count cfg.checksum_window
            deps.write_succeeds).1 := by
  refine ⟨?_, ?_, ?_, ?_⟩
  · rw [run_code_eq deps site_id st cfgs cfg fr true hl hk hf,
        run_code_eq deps site_id st cfgs cfg fr false hl hk hf]
  · rw [run_store_eq deps site_id st cfgs cfg fr true hl hk hf,
        run_store_eq deps site_id st cfgs cfg fr false hl hk hf]
  · exact run_dry_effects deps site_id st cfgs cfg fr hl hk hf
  · exact run_store_eq deps site_id st cfgs cfg fr true hl hk hf

/-- A plain binary site configuration with no notification channels. -/
def c8_config : SiteConfig :=
  { url := "https://example.com/x", type := "binary", selectors := [],
    min_bytes := 0, expected_columns := [], min_rows := 0, content_type := none,
    verify_ssl := true, checksum_window := 10,
    notify_slack_env := none, notify_email_env := none }

/-- C8 witness: the dry-run equivalence instantiated on a concrete
successful run. -/
theorem c8_dry_run_refinement_witness :
    ((test_deps (.ok [("site", c8_config)]) (.ok c5_fetch_ok) true).load_config
        = .ok [("site", c8_config)]
      ∧ ([("site", c8_config)] : List (String × SiteConfig)).lookup "site" = some c8_config
      ∧ (test_deps (.ok [("site", c8_config)]) (.ok c5_fetch_ok) true).fetch = .ok c5_fetch_ok)
    ∧ (run_health_check (test_deps (.ok [("site", c8_config)]) (.ok c5_fetch_ok) true)
          "site" true []).exit_code
        = (run_health_check (test_deps (.ok [("site", c8_config)]) (.ok c5_fetch_ok) true)
          "site" false []).exit_code
    ∧ (run_health_check (test_deps (.ok [("site", c8_config)]) (.ok c5_fetch_ok) true)
          "site" true []).store
        = (run_health_check (test_deps (.ok [("site", c8_config)]) (.ok c5_fetch_ok) true)
          "site" false []).store := by
  have h := c8_dry_run_refinement (test_deps (.ok [("site", c8_config)]) (.ok c5_fetch_ok) true)
    "site" [] [("site", c8_config)] c8_config c5_fetch_ok rfl rfl rfl
  exact ⟨⟨rfl, rfl, rfl⟩, h.1, h.2.1⟩

/-- The C2 scenario: an all-clean HTML site whose metrics-file write fails. -/
def c2_deps : RunnerDeps :=
  test_deps (.ok [("site", c8_config)]) (.ok c5_fetch_ok) false

/-- C2: when the whole-file metrics write raises, `save_metrics` catches
and logs the exception, so the run does not abort: with all checks clean it
still returns exit code 0 (not FAIL 3), leaves the metrics file unchanged,
and notifies normally — the write error is silently swallowed instead of
propagating to the top-level handler as the spec requires. -/
theorem c2_write_failure_swallowed :
    (run_health_check c2_deps "site" false []).exit_code = 0
    ∧ (run_health_check c2_deps "site" false []).store = []
    ∧ (run_health_check c2_deps "site" false []).effects
        = [Effect.console "Health Check: site" "INFO"] :=
  ⟨rfl, rfl, rfl⟩
